import Mathlib

/-!
Shallow embedding of the Carrier Integration Service core
(UPS OAuth token manager, authenticated HTTP transport with error
classification, rating request/response mapper, rating operation,
carrier registry and rate-shopping service), translated from the
TypeScript sources.

Modelling conventions:
* JS numbers that hold monetary amounts, weights and dimensions are
  modelled as `Rat`; decimal wire strings whose only use in the code is
  `parseFloat`/`parseInt` are represented by their parsed numeric value.
* `Date`-valued timestamps attached to `CarrierError` are observational
  metadata (never read by any code path) and are omitted.
* Asynchronous code is modelled by explicit state passing; the token
  manager's concurrent behaviour is modelled by a small-step system
  whose atomic steps mirror the JS event-loop: a caller's synchronous
  prologue (everything `getAccessToken` does before its `await`) is one
  step, and completion of the in-flight acquisition promise (the
  `finally` handler plus all awaiter continuations) is one step.
-/

namespace CIS

/-! ### Error taxonomy (src/errors.ts) -/

inductive CarrierErrorCode where
  | AUTH_FAILED
  | AUTH_TOKEN_EXPIRED
  | VALIDATION_ERROR
  | NETWORK_ERROR
  | TIMEOUT
  | RATE_LIMITED
  | CARRIER_API_ERROR
  | CARRIER_UNAVAILABLE
  | MALFORMED_RESPONSE
  | BAD_REQUEST
  | NOT_FOUND
  | FORBIDDEN
  | CONFIGURATION_ERROR
  | UNKNOWN
deriving DecidableEq, Repr

/-- Carrier identifiers (src/types/common.ts, `CarrierIdSchema`). -/
inductive CarrierId where
  | UPS | FEDEX | USPS | DHL
deriving DecidableEq, Repr

def CarrierId.name : CarrierId → String
  | .UPS => "UPS"
  | .FEDEX => "FEDEX"
  | .USPS => "USPS"
  | .DHL => "DHL"

/-- Structured error details (`CarrierErrorDetails`); the `timestamp`
field is omitted (see module conventions). -/
structure CarrierError where
  code : CarrierErrorCode
  message : String
  carrier : Option CarrierId := none
  httpStatus : Option Int := none
  carrierErrorCode : Option String := none
  carrierErrorMessage : Option String := none
  retryable : Bool
  retryAfterMs : Option Int := none
deriving DecidableEq, Repr

def authError (carrier : CarrierId) (message : String)
    (httpStatus : Option Int := none) : CarrierError :=
  { code := .AUTH_FAILED
    message := "[" ++ carrier.name ++ "] Authentication failed: " ++ message
    carrier := some carrier
    httpStatus := httpStatus
    retryable := false }

def validationError (message : String) (carrier : Option CarrierId := none) :
    CarrierError :=
  { code := .VALIDATION_ERROR
    message := "Validation error: " ++ message
    carrier := carrier
    retryable := false }

def networkError (carrier : CarrierId) (message : String) : CarrierError :=
  { code := .NETWORK_ERROR
    message := "[" ++ carrier.name ++ "] Network error: " ++ message
    carrier := some carrier
    retryable := true }

def timeoutError (carrier : CarrierId) (timeoutMs : Int) : CarrierError :=
  { code := .TIMEOUT
    message := "[" ++ carrier.name ++ "] Request timed out after " ++ toString timeoutMs ++ "ms"
    carrier := some carrier
    retryable := true }

def rateLimitError (carrier : CarrierId) (retryAfterMs : Option Int := none) :
    CarrierError :=
  { code := .RATE_LIMITED
    message := "[" ++ carrier.name ++ "] Rate limit exceeded"
    carrier := some carrier
    httpStatus := some 429
    retryable := true
    retryAfterMs := retryAfterMs }

def carrierApiError (carrier : CarrierId) (message : String) (httpStatus : Int)
    (carrierErrorCode : Option String := none)
    (carrierErrorMessage : Option String := none) : CarrierError :=
  { code := .CARRIER_API_ERROR
    message := "[" ++ carrier.name ++ "] API error (HTTP " ++ toString httpStatus ++ "): " ++ message
    carrier := some carrier
    httpStatus := some httpStatus
    carrierErrorCode := carrierErrorCode
    carrierErrorMessage := carrierErrorMessage
    retryable := httpStatus ≥ 500 }

def malformedResponseError (carrier : CarrierId) (message : String) :
    CarrierError :=
  { code := .MALFORMED_RESPONSE
    message := "[" ++ carrier.name ++ "] Malformed response: " ++ message
    carrier := some carrier
    retryable := false }

/-! ### Domain model (src/types) -/

/-- Normalized service levels (`ServiceLevelSchema`). -/
inductive ServiceLevel where
  | GROUND | EXPRESS | EXPRESS_PLUS | EXPEDITED | STANDARD
  | NEXT_DAY_AIR | NEXT_DAY_AIR_EARLY | NEXT_DAY_AIR_SAVER
  | SECOND_DAY_AIR | SECOND_DAY_AIR_AM | THREE_DAY_SELECT | SAVER
deriving DecidableEq, Repr

structure Money where
  amount : Rat
  currency : String
deriving DecidableEq, Repr

structure Surcharge where
  code : String
  description : String
  amount : Money
deriving DecidableEq, Repr

structure BillingWeight where
  value : Rat
  unit : String
deriving DecidableEq, Repr

/-- Normalized rate quote (src/types/rate.ts). -/
structure RateQuote where
  carrier : CarrierId
  serviceCode : String
  serviceName : String
  serviceLevel : ServiceLevel
  totalCharges : Money
  baseCharges : Money
  surcharges : List Surcharge
  transitDays : Option Int
  estimatedDelivery : Option String
  guaranteed : Bool
  billingWeight : BillingWeight
deriving DecidableEq, Repr

/-! ### UPS wire types (src/carriers/ups/rating/types.ts)

Fields the carrier may return either as one object or as an array are
modelled with `OneOrMany`. Optional wire fields are `Option`s. -/

inductive OneOrMany (α : Type) where
  | one (a : α)
  | many (l : List α)
deriving DecidableEq, Repr

/-- The JS idiom `Array.isArray(x) ? x : [x]`. -/
def normalizeOneOrMany {α : Type} : OneOrMany α → List α
  | .one a => [a]
  | .many l => l

structure UpsCharge where
  CurrencyCode : String
  MonetaryValue : Rat
deriving DecidableEq, Repr

structure UpsItemizedCharge where
  Code : String
  Description : Option String
  CurrencyCode : String
  MonetaryValue : Rat
deriving DecidableEq, Repr

structure UpsService where
  Code : String
  Description : Option String
deriving DecidableEq, Repr

structure UpsBillingWeight where
  UnitCode : String
  Weight : Rat
deriving DecidableEq, Repr

structure UpsGuaranteedDelivery where
  BusinessDaysInTransit : Option Int
deriving DecidableEq, Repr

/-- Flattened `TimeInTransit.ServiceSummary.EstimatedArrival`. -/
structure UpsEstimatedArrival where
  BusinessDaysInTransit : Option Int
  ArrivalDate : Option String
deriving DecidableEq, Repr

structure UpsRatedShipment where
  Service : UpsService
  BillingWeight : UpsBillingWeight
  TransportationCharges : UpsCharge
  TotalCharges : UpsCharge
  GuaranteedDelivery : Option UpsGuaranteedDelivery
  ItemizedCharges : Option (OneOrMany UpsItemizedCharge)
  TimeInTransit : Option UpsEstimatedArrival
deriving DecidableEq, Repr

structure UpsRateResponseBody where
  RatedShipment : Option (OneOrMany UpsRatedShipment)
deriving DecidableEq, Repr

structure UpsRateResponse where
  RateResponse : Option UpsRateResponseBody
deriving DecidableEq, Repr

/-! ### Response mapping (src/carriers/ups/rating/mapper.ts) -/

/-- `UPS_SERVICE_CODE_TO_LEVEL` lookup table. -/
def UPS_SERVICE_CODE_TO_LEVEL : String → Option ServiceLevel
  | "01" => some .NEXT_DAY_AIR
  | "02" => some .SECOND_DAY_AIR
  | "03" => some .GROUND
  | "07" => some .EXPRESS
  | "08" => some .EXPEDITED
  | "11" => some .STANDARD
  | "12" => some .THREE_DAY_SELECT
  | "13" => some .NEXT_DAY_AIR_SAVER
  | "14" => some .NEXT_DAY_AIR_EARLY
  | "54" => some .EXPRESS_PLUS
  | "59" => some .SECOND_DAY_AIR_AM
  | "65" => some .SAVER
  | _ => none

/-- `UPS_SERVICE_NAMES` display-name lookup table. -/
def UPS_SERVICE_NAMES : String → Option String
  | "01" => some "UPS Next Day Air"
  | "02" => some "UPS 2nd Day Air"
  | "03" => some "UPS Ground"
  | "07" => some "UPS Worldwide Express"
  | "08" => some "UPS Worldwide Expedited"
  | "11" => some "UPS Standard"
  | "12" => some "UPS 3 Day Select"
  | "13" => some "UPS Next Day Air Saver"
  | "14" => some "UPS Next Day Air Early"
  | "54" => some "UPS Worldwide Express Plus"
  | "59" => some "UPS 2nd Day Air A.M."
  | "65" => some "UPS Worldwide Saver"
  | _ => none

def mapUpsCharges (charges : UpsCharge) : Money :=
  { amount := charges.MonetaryValue, currency := charges.CurrencyCode }

/-- `mapUpsSurcharges`: normalize single/array, keep only strictly
positive amounts, map into the domain shape. -/
def mapUpsSurcharges (itemized : Option (OneOrMany UpsItemizedCharge)) :
    List Surcharge :=
  match itemized with
  | none => []
  | some field =>
    let charges := normalizeOneOrMany field
    (charges.filter (fun c => 0 < c.MonetaryValue)).map (fun charge =>
      { code := charge.Code
        description := charge.Description.getD ("Surcharge " ++ charge.Code)
        amount := { amount := charge.MonetaryValue
                    currency := charge.CurrencyCode } })

/-- `parseTransitDays`: `GuaranteedDelivery` wins, then `TimeInTransit`. -/
def parseTransitDays (rated : UpsRatedShipment) : Option Int :=
  match rated.GuaranteedDelivery.bind (·.BusinessDaysInTransit) with
  | some d => some d
  | none => rated.TimeInTransit.bind (·.BusinessDaysInTransit)

def parseEstimatedDelivery (rated : UpsRatedShipment) : Option String :=
  rated.TimeInTransit.bind (·.ArrivalDate)

/-- `mapFromUpsRatedShipment`: translate one UPS rated shipment into a
normalized `RateQuote`. -/
def mapFromUpsRatedShipment (rated : UpsRatedShipment) : RateQuote :=
  let serviceCode := rated.Service.Code
  { carrier := .UPS
    serviceCode := serviceCode
    serviceName :=
      match UPS_SERVICE_NAMES serviceCode with
      | some n => n
      | none =>
        match rated.Service.Description with
        | some d => d
        | none => "UPS Service " ++ serviceCode
    serviceLevel := (UPS_SERVICE_CODE_TO_LEVEL serviceCode).getD .STANDARD
    totalCharges := mapUpsCharges rated.TotalCharges
    baseCharges := mapUpsCharges rated.TransportationCharges
    surcharges := mapUpsSurcharges rated.ItemizedCharges
    transitDays := parseTransitDays rated
    estimatedDelivery := parseEstimatedDelivery rated
    guaranteed := rated.GuaranteedDelivery.isSome
    billingWeight := { value := rated.BillingWeight.Weight
                       unit := rated.BillingWeight.UnitCode } }

/-! ### Rating operation response parsing (src/carriers/ups/rating/index.ts) -/

/-- Comparator used by both sorts: `(a, b) => a.totalCharges.amount -
b.totalCharges.amount`. JS `Array.prototype.sort` is specified to be a
stable sort consistent with the comparator, modelled by
`List.mergeSort` with this `≤` test. -/
def quoteLe (a b : RateQuote) : Bool :=
  a.totalCharges.amount ≤ b.totalCharges.amount

/-- `quotes.sort((a, b) => a.totalCharges.amount - b.totalCharges.amount)`. -/
def sortQuotes (quotes : List RateQuote) : List RateQuote :=
  quotes.mergeSort quoteLe

/-- `UpsRatingOperation.parseResponse`: reject when the wrapper or the
rated-shipment field is absent, normalize single object to a
one-element sequence, map, sort ascending by total charges. -/
def parseResponse (response : UpsRateResponse) :
    Except CarrierError (List RateQuote) :=
  match response.RateResponse with
  | none =>
    .error (malformedResponseError .UPS "Missing RateResponse in response body")
  | some rateResponse =>
    match rateResponse.RatedShipment with
    | none =>
      .error (malformedResponseError .UPS "Missing RatedShipment in response")
    | some ratedShipments =>
      let shipments := normalizeOneOrMany ratedShipments
      let quotes := shipments.map mapFromUpsRatedShipment
      .ok (sortQuotes quotes)

/-! ### Rate request domain types (src/types/address.ts, package.ts, rate.ts) -/

structure Address where
  name : String
  addressLines : List String
  city : String
  stateCode : String
  postalCode : String
  countryCode : String
  isResidential : Option Bool := none
deriving DecidableEq, Repr

inductive DimensionUnit where
  | IN | CM
deriving DecidableEq, Repr

inductive WeightUnit where
  | LBS | KGS
deriving DecidableEq, Repr

inductive PackagingType where
  | CUSTOM | LETTER | TUBE | PAK | SMALL_BOX | MEDIUM_BOX | LARGE_BOX
deriving DecidableEq, Repr

structure PackageDimensions where
  length : Rat
  width : Rat
  height : Rat
  unit : DimensionUnit
deriving DecidableEq, Repr

structure PackageWeight where
  value : Rat
  unit : WeightUnit
deriving DecidableEq, Repr

structure DeclaredValue where
  amount : Rat
  currency : String
deriving DecidableEq, Repr

structure Package where
  dimensions : PackageDimensions
  weight : PackageWeight
  packagingType : Option PackagingType := none
  declaredValue : Option DeclaredValue := none
deriving DecidableEq, Repr

structure RateRequest where
  origin : Address
  destination : Address
  packages : List Package
  serviceLevel : Option ServiceLevel := none
  carriers : Option (List CarrierId) := none
  shipperAccountNumber : Option String := none
deriving DecidableEq, Repr

/-! ### Runtime validation schema (src/validation/schemas.ts)

Constraints are translated clause-for-clause from the Zod schemas; the
enumerated fields (units, packaging type, service level, carrier id)
are already enforced by the embedding's types. -/

def validAddress (a : Address) : Bool :=
  1 ≤ a.name.length &&
  1 ≤ a.addressLines.length && a.addressLines.length ≤ 3 &&
  a.addressLines.all (fun l => 1 ≤ l.length) &&
  1 ≤ a.city.length &&
  2 ≤ a.stateCode.length && a.stateCode.length ≤ 5 &&
  1 ≤ a.postalCode.length &&
  a.countryCode.length = 2

def validPackage (p : Package) : Bool :=
  0 < p.dimensions.length && 0 < p.dimensions.width &&
  0 < p.dimensions.height &&
  0 < p.weight.value &&
  (match p.declaredValue with
   | none => true
   | some dv => 0 ≤ dv.amount && dv.currency.length = 3)

/-- `RateRequestSchema.parse` succeeds exactly when this holds. -/
def validRateRequest (r : RateRequest) : Bool :=
  validAddress r.origin && validAddress r.destination &&
  1 ≤ r.packages.length && r.packages.length ≤ 50 &&
  r.packages.all validPackage

/-! ### Carrier registry (src/carriers/registry.ts)

The registry is a `Map` populated once at startup; its value view
(`getAll`, insertion order) is modelled as a list of providers. A
provider's behaviour (its `getRates`) is supplied separately as an
oracle when the service runs. -/

inductive CarrierOperation where
  | rate | label | tracking | address_validation
deriving DecidableEq, Repr

structure CarrierProvider where
  carrierId : CarrierId
  carrierName : String
  supportedOperations : List CarrierOperation
deriving DecidableEq, Repr

/-- `CarrierRegistry.getByOperation`: all registered providers whose
`supportedOperations` contains the operation. -/
def getByOperation (registry : List CarrierProvider)
    (operation : CarrierOperation) : List CarrierProvider :=
  registry.filter (fun c => c.supportedOperations.contains operation)

/-! ### Rate-shopping service (src/services/rate-shopping.ts) -/

/-- What one provider's `getRates` promise settles to: fulfilled with
quotes, rejected with a `CarrierError`, or rejected with a non-taxonomy
value carrying an optional message. -/
inductive ProviderOutcome where
  | fulfilled (quotes : List RateQuote)
  | rejectedCarrier (e : CarrierError)
  | rejectedRaw (message : Option String)
deriving DecidableEq, Repr

/-- Response shape returned on success; the `requestedAt` timestamp is
omitted (see module conventions). -/
structure RateResponse where
  quotes : List RateQuote
  carriers : List CarrierId
deriving DecidableEq, Repr

/-- `RateShoppingService.resolveCarriers`. -/
def resolveCarriers (registry : List CarrierProvider)
    (requestedCarriers : Option (List CarrierId)) : List CarrierId :=
  match requestedCarriers with
  | some l => if 0 < l.length then l else
      (getByOperation registry .rate).map (·.carrierId)
  | none => (getByOperation registry .rate).map (·.carrierId)

/-- Coercion applied to a rejected settlement (rate-shopping.ts step 4):
a `CarrierError` passes through, anything else becomes an UNKNOWN-kind
error tagged with the carrier. -/
def coerceRejection (carrier : CarrierId) : ProviderOutcome → Option CarrierError
  | .fulfilled _ => none
  | .rejectedCarrier e => some e
  | .rejectedRaw msg =>
    some { code := .UNKNOWN
           message := "Carrier " ++ carrier.name ++ " failed: " ++ msg.getD "Unknown error"
           carrier := some carrier
           retryable := false }

/-- The `Promise.allSettled` outcome vector over the resolved carriers
(settlement order is the carrier order). -/
def fanOutResults (registry : List CarrierProvider)
    (fetch : CarrierId → ProviderOutcome) (request : RateRequest) :
    List (CarrierId × ProviderOutcome) :=
  (resolveCarriers registry request.carriers).map
    (fun carrierId => (carrierId, fetch carrierId))

/-- `allQuotes`: concatenation of all fulfilled carriers' quote lists,
in carrier order. -/
def collectedQuotes (registry : List CarrierProvider)
    (fetch : CarrierId → ProviderOutcome) (request : RateRequest) :
    List RateQuote :=
  (fanOutResults registry fetch request).flatMap (fun r =>
    match r.2 with
    | .fulfilled quotes => quotes
    | _ => [])

/-- `errors`: the collected (coerced) failures, in carrier order. -/
def collectedErrors (registry : List CarrierProvider)
    (fetch : CarrierId → ProviderOutcome) (request : RateRequest) :
    List CarrierError :=
  (fanOutResults registry fetch request).filterMap
    (fun r => coerceRejection r.1 r.2)

/-- `RateShoppingService.getQuotes`, with provider behaviour supplied by
the oracle `fetch`. Returns the service result together with the list
of carriers whose `getRates` was invoked (empty when validation fails,
since validation precedes the fan-out and every network call). -/
def getQuotes (registry : List CarrierProvider)
    (fetch : CarrierId → ProviderOutcome) (request : RateRequest) :
    Except CarrierError RateResponse × List CarrierId :=
  if !validRateRequest request then
    (.error (validationError "invalid rate request"), [])
  else
    let carriers := resolveCarriers registry request.carriers
    let allQuotes := collectedQuotes registry fetch request
    let errors := collectedErrors registry fetch request
    if allQuotes.length = 0 && 0 < errors.length then
      (.error (errors.headD (validationError "unreachable")), carriers)
    else
      (.ok { quotes := sortQuotes allQuotes, carriers := carriers }, carriers)

/-! ### UPS OAuth token manager (src/carriers/ups/auth.ts) -/

structure TokenData where
  accessToken : String
  expiresAt : Int
  tokenType : String
deriving DecidableEq, Repr

/-- `UpsAuthManager.EXPIRY_BUFFER_MS`. -/
def EXPIRY_BUFFER_MS : Int := 60000

/-- `UpsAuthManager.isExpired`: `Date.now() >= expiresAt - BUFFER`. -/
def isExpired (now : Int) (token : TokenData) : Bool :=
  token.expiresAt - EXPIRY_BUFFER_MS ≤ now

/-- The cached-token slot is invalid when empty or expired; only then
does `getAccessToken` reach the acquisition branch. -/
def tokenInvalid (now : Int) : Option TokenData → Bool
  | none => true
  | some t => isExpired now t

/-- `UpsAuthManager.getAccessToken` run to completion with no
interleaved callers: the cached-token slot before and after the call,
the call's result, and how many acquisition requests it issued. The
acquisition outcome (success with token data, or classified failure)
is supplied by `acquire`. On failure the slot is left unchanged; on
success the new token is stored. -/
def getAccessToken (token : Option TokenData) (now : Int)
    (acquire : Except CarrierError TokenData) :
    Except CarrierError String × Option TokenData × Nat :=
  match token with
  | some t =>
    if !isExpired now t then (.ok t.accessToken, token, 0)
    else
      match acquire with
      | .ok td => (.ok td.accessToken, some td, 1)
      | .error e => (.error e, token, 1)
  | none =>
    match acquire with
    | .ok td => (.ok td.accessToken, some td, 1)
    | .error e => (.error e, token, 1)

/-- `UpsAuthManager.invalidateToken`. -/
def invalidateToken (_token : Option TokenData) : Option TokenData := none

/-- `UpsAuthManager.hasValidToken`. -/
def hasValidToken (token : Option TokenData) (now : Int) : Bool :=
  token.isSome && !(tokenInvalid now token)

/-- Run a sequence of `getAccessToken` calls one after another; each
list entry gives the call's time and the outcome the OAuth endpoint
would return if that call issues an acquisition. Returns all results,
the final slot, and the total number of acquisition requests issued. -/
def runGetTokenCalls (token : Option TokenData)
    (calls : List (Int × Except CarrierError TokenData)) :
    List (Except CarrierError String) × Option TokenData × Nat :=
  match calls with
  | [] => ([], token, 0)
  | (now, acquire) :: rest =>
    let (r, token', n) := getAccessToken token now acquire
    let (rs, tokenFin, m) := runGetTokenCalls token' rest
    (r :: rs, tokenFin, n + m)

/-! #### Concurrent small-step model of `getAccessToken`

Mirrors the JS event loop. A caller's *prologue* — the synchronous code
of `getAccessToken` up to its `await this.inflightRequest` — is one
atomic step: it checks the cached token, and if that is missing or
expired it either starts the acquisition (storing the shared promise in
`inflightRequest`) or attaches to the one already in flight.
*Completion* of the in-flight promise is one atomic step: the `finally`
handler clears `inflightRequest`, and every attached awaiter then
resumes, stores the (shared) result and returns it — or observes the
same propagated error. In-flight requests are numbered in creation
order, so `started` counts the credential-exchange calls issued. -/

deriving instance DecidableEq for Except

inductive CallerPhase where
  | ready
  | waiting (fid : Nat)
  | done (r : Except CarrierError String)
deriving DecidableEq, Repr

structure FlightSys where
  token : Option TokenData
  inflight : Option Nat
  started : Nat
  callers : List CallerPhase
deriving DecidableEq, Repr

inductive SysStep where
  | prologue (i : Nat)
  | complete
deriving DecidableEq, Repr

/-- One caller's synchronous prologue (enabled only while that caller
has not yet run). -/
def prologueStep (now : Int) (s : FlightSys) (i : Nat) : Option FlightSys :=
  match s.callers.get? i with
  | some .ready =>
    match s.token with
    | some t =>
      if !isExpired now t then
        some { s with callers := s.callers.set i (.done (.ok t.accessToken)) }
      else
        match s.inflight with
        | some f => some { s with callers := s.callers.set i (.waiting f) }
        | none =>
          some { s with inflight := some s.started
                        started := s.started + 1
                        callers := s.callers.set i (.waiting s.started) }
    | none =>
      match s.inflight with
      | some f => some { s with callers := s.callers.set i (.waiting f) }
      | none =>
        some { s with inflight := some s.started
                      started := s.started + 1
                      callers := s.callers.set i (.waiting s.started) }
  | _ => none

/-- Completion of the in-flight acquisition promise, whose outcome is
`acq f` for flight number `f`. Clears the in-flight slot, resumes every
attached awaiter with the shared outcome, and on success stores the new
token (each awaiter stores the same value). -/
def completeStep (acq : Nat → Except CarrierError TokenData)
    (s : FlightSys) : Option FlightSys :=
  match s.inflight with
  | none => none
  | some f =>
    match acq f with
    | .ok td =>
      some { s with token := some td
                    inflight := none
                    callers := s.callers.map (fun c =>
                      match c with
                      | .waiting g => if g = f then .done (.ok td.accessToken) else c
                      | _ => c) }
    | .error e =>
      some { s with inflight := none
                    callers := s.callers.map (fun c =>
                      match c with
                      | .waiting g => if g = f then .done (.error e) else c
                      | _ => c) }

def sysStep (now : Int) (acq : Nat → Except CarrierError TokenData)
    (s : FlightSys) : SysStep → Option FlightSys
  | .prologue i => prologueStep now s i
  | .complete => completeStep acq s

def runSys (now : Int) (acq : Nat → Except CarrierError TokenData) :
    List SysStep → FlightSys → Option FlightSys
  | [], s => some s
  | l :: rest, s => (sysStep now acq s l).bind (runSys now acq rest)

/-- Initial system: `n` callers about to invoke `getAccessToken`, a
given cached-token slot, nothing in flight. -/
def initSys (tok : Option TokenData) (n : Nat) : FlightSys :=
  { token := tok, inflight := none, started := 0
    callers := List.replicate n .ready }

/-- Mid-run invariant of the single-flight system: after the first
prologue has started flight 0 and before that flight completes, the
cached slot still holds the initial (invalid) token, flight 0 is the
only acquisition ever started, and every caller has either not run yet
or is awaiting flight 0. -/
def SingleFlightInv (tok0 : Option TokenData) (s : FlightSys) : Prop :=
  s.token = tok0 ∧ s.inflight = some 0 ∧ s.started = 1 ∧
  ∀ c ∈ s.callers, c = .ready ∨ c = .waiting 0

/-! ### UPS HTTP client (src/carriers/ups/client.ts) -/

/-- Error body as inspected by `extractUpsError`: either it has the
conventional `{response: {errors: [...]}}` nesting (with the array
possibly empty and entry fields possibly absent), or it does not. -/
inductive UpsBody where
  | noShape
  | shaped (errors : List (Option String × Option String))
deriving DecidableEq, Repr

/-- `UpsHttpClient.extractUpsError`: first entry of the nested error
list, with per-field defaults; the global default when the shape is
absent or the list empty. -/
def extractUpsError : UpsBody → String × String
  | .shaped ((code, message) :: _) =>
    (code.getD "UNKNOWN", message.getD "Unknown UPS error")
  | .shaped [] => ("UNKNOWN", "Unknown UPS API error")
  | .noShape => ("UNKNOWN", "Unknown UPS API error")

/-- An axios failure's observable parts: transport code (for timeouts),
the response when one was received (status, decoded body, retry-after
header in seconds). -/
structure AxiosFailure where
  transportCode : Option String
  response : Option (Int × UpsBody × Option Int)
deriving DecidableEq, Repr

/-- What a raw thrown value can be at the `catch` in `post`:
an axios error, an already-structured `CarrierError` (e.g. thrown by
the auth manager), or anything else with a message. -/
inductive RawError where
  | axios (e : AxiosFailure)
  | carrier (e : CarrierError)
  | other (message : Option String)
deriving DecidableEq, Repr

/-- `UpsHttpClient.classifyError`, clause for clause. `timeoutMs` is
the configured client timeout (`defaults.timeout ?? 10_000`). -/
def classifyError (error : RawError) (timeoutMs : Int) : CarrierError :=
  match error with
  | .carrier e => e
  | .axios e =>
    if e.transportCode = some "ECONNABORTED" || e.transportCode = some "ETIMEDOUT" then
      timeoutError .UPS timeoutMs
    else
      match e.response with
      | none => networkError .UPS "axios error"
      | some (status, data, retryAfter) =>
        if status = 429 then
          rateLimitError .UPS (retryAfter.map (· * 1000))
        else
          let upsError := extractUpsError data
          if status = 401 then
            { code := .AUTH_FAILED
              message := "[UPS] Authentication failed: " ++ upsError.2
              carrier := some .UPS
              httpStatus := some status
              carrierErrorCode := some upsError.1
              carrierErrorMessage := some upsError.2
              retryable := false }
          else if status = 403 then
            { code := .FORBIDDEN
              message := "[UPS] Forbidden: " ++ upsError.2
              carrier := some .UPS
              httpStatus := some status
              carrierErrorCode := some upsError.1
              carrierErrorMessage := some upsError.2
              retryable := false }
          else if 400 ≤ status && status < 500 then
            carrierApiError .UPS upsError.2 status (some upsError.1) (some upsError.2)
          else
            carrierApiError .UPS upsError.2 status (some upsError.1) (some upsError.2)
  | .other message =>
    malformedResponseError .UPS (message.getD "Unknown error")

/-- The condition `axios.isAxiosError(error) && error.response?.status
=== 401` that triggers the single retry in `post`. -/
def isAxios401 : RawError → Bool
  | .axios e =>
    match e.response with
    | some (status, _, _) => status = 401
    | none => false
  | _ => false

/-- One attempt of `makeRequest` either yields a decoded response body
or throws a raw error. -/
inductive AttemptOutcome (ρ : Type) where
  | ok (body : ρ)
  | thrown (e : RawError)
deriving DecidableEq, Repr

/-- `UpsHttpClient.post`, with the outcomes of the first and (if
reached) second `makeRequest` attempt supplied by `attempt1`/`attempt2`.
Returns the call's result, the number of attempts issued, and the
number of `invalidateToken` calls made. -/
def post {ρ : Type} (attempt1 attempt2 : AttemptOutcome ρ) (timeoutMs : Int) :
    Except CarrierError ρ × Nat × Nat :=
  match attempt1 with
  | .ok body => (.ok body, 1, 0)
  | .thrown e =>
    if isAxios401 e then
      match attempt2 with
      | .ok body => (.ok body, 2, 1)
      | .thrown e2 => (.error (classifyError e2 timeoutMs), 2, 1)
    else
      (.error (classifyError e timeoutMs), 1, 0)

/-! ### Concrete sample inputs (used by witnesses and counterexamples) -/

/-- A minimal rated shipment with a given service code and description. -/
def sampleShipment (code : String) (desc : Option String) : UpsRatedShipment :=
  { Service := { Code := code, Description := desc }
    BillingWeight := { UnitCode := "LBS", Weight := 6 }
    TransportationCharges := { CurrencyCode := "USD", MonetaryValue := 10 }
    TotalCharges := { CurrencyCode := "USD", MonetaryValue := 10 }
    GuaranteedDelivery := none
    ItemizedCharges := none
    TimeInTransit := none }

def sampleAddress : Address :=
  { name := "Test Shipper"
    addressLines := ["123 Main St"]
    city := "San Francisco"
    stateCode := "CA"
    postalCode := "94105"
    countryCode := "US" }

def samplePackage : Package :=
  { dimensions := { length := 12, width := 8, height := 6, unit := .IN }
    weight := { value := 5, unit := .LBS } }

def sampleRequest : RateRequest :=
  { origin := sampleAddress
    destination := sampleAddress
    packages := [samplePackage] }

/-! ### Shared facts about the quote sort -/

theorem quoteLe_trans (a b c : RateQuote) :
    quoteLe a b → quoteLe b c → quoteLe a c := by
  simp only [quoteLe, decide_eq_true_eq]
  exact le_trans

theorem quoteLe_total (a b : RateQuote) : quoteLe a b || quoteLe b a := by
  simp only [quoteLe, Bool.or_eq_true, decide_eq_true_eq]
  exact le_total _ _

theorem sortQuotes_sorted (l : List RateQuote) :
    (sortQuotes l).Pairwise (fun a b => quoteLe a b = true) :=
  List.sorted_mergeSort quoteLe_trans quoteLe_total l

theorem sortQuotes_perm (l : List RateQuote) : (sortQuotes l).Perm l :=
  List.mergeSort_perm l quoteLe

theorem sortQuotes_stable {a b : RateQuote} {l : List RateQuote}
    (hab : quoteLe a b) (h : [a, b].Sublist l) :
    [a, b].Sublist (sortQuotes l) :=
  List.pair_sublist_mergeSort quoteLe_trans quoteLe_total hab h

/-! ### Claim theorems -/

/-- C6: the rating-operation response parser accepts both a single
rated-shipment object and a sequence of rated-shipment objects; a
response carrying one object and a response carrying the one-element
sequence of that same object map to identical quote content. -/
theorem parseResponse_shape_normalization (s : UpsRatedShipment) :
    parseResponse ⟨some ⟨some (.one s)⟩⟩ =
      parseResponse ⟨some ⟨some (.many [s])⟩⟩ := rfl

/-- C9 counterexample: for a rated shipment whose service code "99" has
no display-name table entry and which carries no carrier-echoed name,
the mapped service name is the synthesized string "UPS Service 99",
not "Service 99" as the claim states. -/
theorem serviceName_synthesized_counterexample :
    (mapFromUpsRatedShipment (sampleShipment "99" none)).serviceName =
        "UPS Service 99" ∧
    (mapFromUpsRatedShipment (sampleShipment "99" none)).serviceName ≠
        "Service 99" := by
  exact ⟨rfl, by decide⟩

/-- C9 (amended): the service name is resolved from the display-name
table for the shipment's service code; if the table has no entry, the
carrier-echoed `Service.Description` is used; if both are absent, the
synthesized string "UPS Service {code}" is used. -/
theorem serviceName_resolution (rated : UpsRatedShipment) :
    (∀ n, UPS_SERVICE_NAMES rated.Service.Code = some n →
        (mapFromUpsRatedShipment rated).serviceName = n) ∧
    (∀ d, UPS_SERVICE_NAMES rated.Service.Code = none →
        rated.Service.Description = some d →
        (mapFromUpsRatedShipment rated).serviceName = d) ∧
    (UPS_SERVICE_NAMES rated.Service.Code = none →
        rated.Service.Description = none →
        (mapFromUpsRatedShipment rated).serviceName =
          "UPS Service " ++ rated.Service.Code) := by
  refine ⟨?_, ?_, ?_⟩ <;> intros <;> simp [mapFromUpsRatedShipment, *]

/-- C9 witness: the three resolution cases at concrete shipments —
known code "03", unknown code with an echoed description, unknown code
with no description. -/
theorem serviceName_resolution_witness :
    (mapFromUpsRatedShipment (sampleShipment "03" none)).serviceName =
        "UPS Ground" ∧
    (mapFromUpsRatedShipment (sampleShipment "99" (some "Echoed"))).serviceName =
        "Echoed" ∧
    (mapFromUpsRatedShipment (sampleShipment "98" none)).serviceName =
        "UPS Service 98" :=
  ⟨(serviceName_resolution (sampleShipment "03" none)).1 "UPS Ground" rfl,
   (serviceName_resolution (sampleShipment "99" (some "Echoed"))).2.1 "Echoed"
     rfl rfl,
   (serviceName_resolution (sampleShipment "98" none)).2.2 rfl rfl⟩

/-- C5 counterexample: classifying an HTTP 500 failure whose body lacks
the nested error-list shape yields the carrier message
"Unknown UPS API error", not "Unknown API error" as the claim states. -/
theorem classify_unknown_message_counterexample :
    (classifyError (.axios ⟨none, some (500, .noShape, none)⟩) 10000).carrierErrorMessage =
        some "Unknown UPS API error" ∧
    (classifyError (.axios ⟨none, some (500, .noShape, none)⟩) 10000).carrierErrorMessage ≠
        some "Unknown API error" := by
  exact ⟨rfl, by decide⟩

/-- C5 (amended): for a transport failure carrying an HTTP status in
4xx other than 401/403/429, or in 5xx, classification produces a
Carrier-API error whose retryable flag is true iff the status is ≥ 500;
the upstream error code/message are extracted from the nested
`{response:{errors:[{code,message}]}}` shape, and when that shape is
absent the error carries code "UNKNOWN" and message
"Unknown UPS API error". -/
theorem classify_carrier_api_error (status : Int) (body : UpsBody)
    (retryAfter : Option Int) (timeoutMs : Int)
    (hlo : 400 ≤ status) (hhi : status < 600)
    (h401 : status ≠ 401) (h403 : status ≠ 403) (h429 : status ≠ 429) :
    classifyError (.axios ⟨none, some (status, body, retryAfter)⟩) timeoutMs =
      carrierApiError .UPS (extractUpsError body).2 status
        (some (extractUpsError body).1) (some (extractUpsError body).2) ∧
    (classifyError (.axios ⟨none, some (status, body, retryAfter)⟩) timeoutMs).code =
      .CARRIER_API_ERROR ∧
    ((classifyError (.axios ⟨none, some (status, body, retryAfter)⟩) timeoutMs).retryable =
        true ↔ 500 ≤ status) ∧
    (∀ c m rest, body = .shaped ((some c, some m) :: rest) →
      (classifyError (.axios ⟨none, some (status, body, retryAfter)⟩) timeoutMs).carrierErrorCode =
          some c ∧
      (classifyError (.axios ⟨none, some (status, body, retryAfter)⟩) timeoutMs).carrierErrorMessage =
          some m) ∧
    (body = .noShape →
      (classifyError (.axios ⟨none, some (status, body, retryAfter)⟩) timeoutMs).carrierErrorCode =
          some "UNKNOWN" ∧
      (classifyError (.axios ⟨none, some (status, body, retryAfter)⟩) timeoutMs).carrierErrorMessage =
          some "Unknown UPS API error") := by
  have hmain : classifyError (.axios ⟨none, some (status, body, retryAfter)⟩) timeoutMs =
      carrierApiError .UPS (extractUpsError body).2 status
        (some (extractUpsError body).1) (some (extractUpsError body).2) := by
    simp [classifyError, h401, h403, h429]
  refine ⟨hmain, ?_, ?_, ?_, ?_⟩
  · rw [hmain]; rfl
  · rw [hmain]; simp [carrierApiError]
  · intro c m rest hbody
    rw [hmain, hbody]
    exact ⟨rfl, rfl⟩
  · intro hbody
    rw [hmain, hbody]
    exact ⟨rfl, rfl⟩

/-- C5 witness: a concrete HTTP 503 failure with a shaped error body,
and a concrete HTTP 404 failure with an absent shape. -/
theorem classify_carrier_api_error_witness :
    classifyError (.axios ⟨none, some (503, .shaped [(some "X1", some "boom")], none)⟩) 10000 =
      carrierApiError .UPS "boom" 503 (some "X1") (some "boom") ∧
    (classifyError (.axios ⟨none, some (503, .shaped [(some "X1", some "boom")], none)⟩) 10000).retryable =
      true ∧
    (classifyError (.axios ⟨none, some (404, .noShape, none)⟩) 10000).carrierErrorMessage =
      some "Unknown UPS API error" := by
  have h1 := classify_carrier_api_error 503 (.shaped [(some "X1", some "boom")])
    none 10000 (by decide) (by decide) (by decide) (by decide) (by decide)
  have h2 := classify_carrier_api_error 404 .noShape
    none 10000 (by decide) (by decide) (by decide) (by decide) (by decide)
  exact ⟨h1.1, (h1.2.2.1).mpr (by decide), (h2.2.2.2.2 rfl).2⟩

/-- C10: an explicitly supplied empty carrier list resolves exactly as
an absent one — to all registered providers supporting the "rate"
operation — and `getQuotes` queries exactly that carrier set. -/
theorem resolveCarriers_empty_list (registry : List CarrierProvider)
    (fetch : CarrierId → ProviderOutcome) (request : RateRequest) :
    resolveCarriers registry (some []) = resolveCarriers registry none ∧
    resolveCarriers registry (some []) =
      (getByOperation registry .rate).map (·.carrierId) ∧
    (request.carriers = some [] → validRateRequest request = true →
      (getQuotes registry fetch request).2 =
        (getByOperation registry .rate).map (·.carrierId)) := by
  refine ⟨rfl, rfl, ?_⟩
  intro hc hv
  unfold getQuotes
  rw [hv]
  simp only [Bool.not_true, Bool.false_eq_true, if_false, hc]
  split <;> simp [resolveCarriers]

/-- C10 witness: a registry with one rate-capable and one
tracking-only provider, and a valid request carrying `carriers: []`. -/
theorem resolveCarriers_empty_list_witness :
    (getQuotes
        [{ carrierId := .UPS, carrierName := "UPS",
           supportedOperations := [.rate] },
         { carrierId := .FEDEX, carrierName := "FedEx",
           supportedOperations := [.tracking] }]
        (fun _ => .fulfilled [])
        { sampleRequest with carriers := some [] }).2 = [.UPS] := by
  have h := resolveCarriers_empty_list
    [{ carrierId := .UPS, carrierName := "UPS",
       supportedOperations := [.rate] },
     { carrierId := .FEDEX, carrierName := "FedEx",
       supportedOperations := [.tracking] }]
    (fun _ => .fulfilled [])
    { sampleRequest with carriers := some [] }
  exact (h.2.2 rfl (by decide)).trans rfl

/-- C3: a `post` whose first attempt fails with an axios HTTP 401
invalidates the token once and repeats the request exactly once more
(two attempts in total): a successful retry's result is returned, and a
failed retry (including a second 401) is classified and raised with no
third attempt. A first attempt failing any other way is classified and
raised immediately, with one attempt and no invalidation. -/
theorem post_401_retry_policy {ρ : Type} (e : RawError)
    (attempt2 : AttemptOutcome ρ) (timeoutMs : Int) :
    (isAxios401 e = true →
      (∀ b, attempt2 = .ok b →
        post (.thrown e) attempt2 timeoutMs = (.ok b, 2, 1)) ∧
      (∀ e2, attempt2 = .thrown e2 →
        post (.thrown e) attempt2 timeoutMs =
          (.error (classifyError e2 timeoutMs), 2, 1))) ∧
    (isAxios401 e = false →
      post (.thrown e) attempt2 timeoutMs =
        (.error (classifyError e timeoutMs), 1, 0)) := by
  constructor
  · intro h401
    constructor
    · intro b hb; simp [post, h401, hb]
    · intro e2 he2; simp [post, h401, he2]
  · intro hother
    simp [post, hother]

/-- C3 witness: a first-attempt 401 followed by a successful retry
returns the retried body after one invalidation; a first-attempt 401
followed by a second 401 raises the classified auth failure after two
attempts; a first-attempt 500 raises immediately with no retry. -/
theorem post_401_retry_policy_witness :
    post (ρ := Nat)
        (.thrown (.axios ⟨none, some (401, .noShape, none)⟩)) (.ok 7) 10000 =
      (.ok 7, 2, 1) ∧
    post (ρ := Nat)
        (.thrown (.axios ⟨none, some (401, .noShape, none)⟩))
        (.thrown (.axios ⟨none, some (401, .noShape, none)⟩)) 10000 =
      (.error (classifyError (.axios ⟨none, some (401, .noShape, none)⟩) 10000),
       2, 1) ∧
    post (ρ := Nat)
        (.thrown (.axios ⟨none, some (500, .noShape, none)⟩)) (.ok 7) 10000 =
      (.error (classifyError (.axios ⟨none, some (500, .noShape, none)⟩) 10000),
       1, 0) :=
  ⟨((post_401_retry_policy (.axios ⟨none, some (401, .noShape, none)⟩)
      (.ok 7) 10000).1 (by decide)).1 7 rfl,
   ((post_401_retry_policy (.axios ⟨none, some (401, .noShape, none)⟩)
      (.thrown (.axios ⟨none, some (401, .noShape, none)⟩)) 10000).1
        (by decide)).2 _ rfl,
   (post_401_retry_policy (.axios ⟨none, some (500, .noShape, none)⟩)
      (.ok 7) 10000).2 (by decide)⟩

/-- C7: a request that fails domain-schema validation makes `getQuotes`
raise a VALIDATION_ERROR-kind error, and no provider `getRates` call —
hence no network activity and no token acquisition, both of which can
only happen inside a provider call — is attempted. -/
theorem validation_gate (registry : List CarrierProvider)
    (fetch : CarrierId → ProviderOutcome) (request : RateRequest)
    (hinvalid : validRateRequest request = false) :
    (∃ e, (getQuotes registry fetch request).1 = .error e ∧
        e.code = .VALIDATION_ERROR) ∧
    (getQuotes registry fetch request).2 = [] := by
  unfold getQuotes
  rw [hinvalid]
  exact ⟨⟨validationError "invalid rate request", rfl, rfl⟩, rfl⟩

/-- C7 witness: a request with zero packages is rejected before any
provider is queried. -/
theorem validation_gate_witness :
    (∃ e, (getQuotes [] (fun _ => .fulfilled [])
        { sampleRequest with packages := [] }).1 = .error e ∧
        e.code = .VALIDATION_ERROR) ∧
    (getQuotes [] (fun _ => .fulfilled [])
        { sampleRequest with packages := [] }).2 = [] :=
  validation_gate [] (fun _ => .fulfilled [])
    { sampleRequest with packages := [] } (by decide)

/-- C4: if zero quotes were produced and at least one carrier failure
was collected, `getQuotes` raises exactly the first collected failure;
if at least one carrier succeeds with at least one quote, `getQuotes`
returns the (sorted) collected quotes and does not raise — the failed
carriers' errors are absent from the response, whose only fields are
the quotes and the carrier list. -/
theorem partial_failure_policy (registry : List CarrierProvider)
    (fetch : CarrierId → ProviderOutcome) (request : RateRequest)
    (hvalid : validRateRequest request = true) :
    (∀ e, collectedQuotes registry fetch request = [] →
      (collectedErrors registry fetch request).head? = some e →
      getQuotes registry fetch request =
        (.error e, resolveCarriers registry request.carriers)) ∧
    (∀ c quotes, c ∈ resolveCarriers registry request.carriers →
      fetch c = .fulfilled quotes → quotes ≠ [] →
      getQuotes registry fetch request =
        (.ok { quotes := sortQuotes (collectedQuotes registry fetch request)
               carriers := resolveCarriers registry request.carriers },
         resolveCarriers registry request.carriers)) := by
  constructor
  · intro e hq herr
    unfold getQuotes
    rw [hvalid]
    obtain ⟨ys, hys⟩ := List.head?_eq_some_iff.mp herr
    simp [hq, hys]
  · intro c quotes hc hfetch hne
    have hnonnil : collectedQuotes registry fetch request ≠ [] := by
      intro hnil
      apply hne
      have := List.flatMap_eq_nil_iff.mp hnil (c, fetch c)
        (by
          unfold fanOutResults
          exact List.mem_map_of_mem _ hc)
      rw [hfetch] at this
      exact this
    unfold getQuotes
    rw [hvalid]
    simp [List.length_eq_zero, hnonnil]

/-- C4 witness: one carrier fulfills with one quote while another
rejects — the single quote is returned and nothing is raised; and when
both carriers reject, the first carrier's error is raised. -/
theorem partial_failure_policy_witness :
    getQuotes
        [{ carrierId := .UPS, carrierName := "UPS",
           supportedOperations := [.rate] },
         { carrierId := .FEDEX, carrierName := "FedEx",
           supportedOperations := [.rate] }]
        (fun c => match c with
          | .UPS => .fulfilled [mapFromUpsRatedShipment (sampleShipment "03" none)]
          | _ => .rejectedCarrier (networkError .FEDEX "down"))
        sampleRequest =
      (.ok { quotes := [mapFromUpsRatedShipment (sampleShipment "03" none)]
             carriers := [.UPS, .FEDEX] },
       [.UPS, .FEDEX]) ∧
    getQuotes
        [{ carrierId := .UPS, carrierName := "UPS",
           supportedOperations := [.rate] },
         { carrierId := .FEDEX, carrierName := "FedEx",
           supportedOperations := [.rate] }]
        (fun c => match c with
          | .UPS => .rejectedCarrier (networkError .UPS "down")
          | _ => .rejectedCarrier (networkError .FEDEX "down"))
        sampleRequest =
      (.error (networkError .UPS "down"), [.UPS, .FEDEX]) := by
  constructor
  · have h := (partial_failure_policy
      [{ carrierId := .UPS, carrierName := "UPS",
         supportedOperations := [.rate] },
       { carrierId := .FEDEX, carrierName := "FedEx",
         supportedOperations := [.rate] }]
      (fun c => match c with
        | .UPS => .fulfilled [mapFromUpsRatedShipment (sampleShipment "03" none)]
        | _ => .rejectedCarrier (networkError .FEDEX "down"))
      sampleRequest (by decide)).2
      CarrierId.UPS [mapFromUpsRatedShipment (sampleShipment "03" none)]
      (by decide) rfl (by simp)
    rw [h]
    have h1 : collectedQuotes
        [{ carrierId := .UPS, carrierName := "UPS",
           supportedOperations := [.rate] },
         { carrierId := .FEDEX, carrierName := "FedEx",
           supportedOperations := [.rate] }]
        (fun c => match c with
          | .UPS => .fulfilled [mapFromUpsRatedShipment (sampleShipment "03" none)]
          | _ => .rejectedCarrier (networkError .FEDEX "down"))
        sampleRequest = [mapFromUpsRatedShipment (sampleShipment "03" none)] := by
      decide
    have h2 : resolveCarriers
        [{ carrierId := .UPS, carrierName := "UPS",
           supportedOperations := [.rate] },
         { carrierId := .FEDEX, carrierName := "FedEx",
           supportedOperations := [.rate] }]
        sampleRequest.carriers = [.UPS, .FEDEX] := by decide
    rw [h1, h2]
    simp [sortQuotes]
  · have h := (partial_failure_policy
      [{ carrierId := .UPS, carrierName := "UPS",
         supportedOperations := [.rate] },
       { carrierId := .FEDEX, carrierName := "FedEx",
         supportedOperations := [.rate] }]
      (fun c => match c with
        | .UPS => .rejectedCarrier (networkError .UPS "down")
        | _ => .rejectedCarrier (networkError .FEDEX "down"))
      sampleRequest (by decide)).1
      (networkError .UPS "down") (by decide) rfl
    rw [h]
    have h2 : resolveCarriers
        [{ carrierId := .UPS, carrierName := "UPS",
           supportedOperations := [.rate] },
         { carrierId := .FEDEX, carrierName := "FedEx",
           supportedOperations := [.rate] }]
        sampleRequest.carriers = [.UPS, .FEDEX] := by decide
    rw [h2]

/-- C8: both the per-carrier parsed quote list and the aggregated
`getQuotes` quote list are sorted by total-charge amount ascending, are
permutations of the pre-sort sequence (carrier-reported order,
respectively the concatenation), and the sort is stable: any two
quotes whose prior order already agrees with the `≤`-comparison — in
particular any two with equal total-charge amounts — keep that order. -/
theorem quotes_sorted_and_stable :
    (∀ (field : OneOrMany UpsRatedShipment) (qs : List RateQuote),
      parseResponse ⟨some ⟨some field⟩⟩ = .ok qs →
      qs.Pairwise (fun a b => quoteLe a b = true) ∧
      qs.Perm ((normalizeOneOrMany field).map mapFromUpsRatedShipment) ∧
      (∀ a b, quoteLe a b = true →
        [a, b].Sublist ((normalizeOneOrMany field).map mapFromUpsRatedShipment) →
        [a, b].Sublist qs)) ∧
    (∀ (registry : List CarrierProvider) (fetch : CarrierId → ProviderOutcome)
        (request : RateRequest) (resp : RateResponse),
      (getQuotes registry fetch request).1 = .ok resp →
      resp.quotes.Pairwise (fun a b => quoteLe a b = true) ∧
      resp.quotes.Perm (collectedQuotes registry fetch request) ∧
      (∀ a b, quoteLe a b = true →
        [a, b].Sublist (collectedQuotes registry fetch request) →
        [a, b].Sublist resp.quotes)) := by
  constructor
  · intro field qs hq
    simp only [parseResponse, Except.ok.injEq] at hq
    subst hq
    exact ⟨sortQuotes_sorted _, sortQuotes_perm _,
      fun a b hab hsub => sortQuotes_stable hab hsub⟩
  · intro registry fetch request resp hr
    unfold getQuotes at hr
    dsimp only at hr
    split at hr
    · simp at hr
    · split at hr
      · simp at hr
      · simp only [Except.ok.injEq] at hr
        subst hr
        exact ⟨sortQuotes_sorted _, sortQuotes_perm _,
          fun a b hab hsub => sortQuotes_stable hab hsub⟩

/-- C8 witness: the parser applied to three rated shipments priced
28.75, 15.50, 45.00 yields them sorted 15.50, 28.75, 45.00 — the
sortedness, permutation and stability conclusions hold there. -/
theorem quotes_sorted_and_stable_witness :
    parseResponse ⟨some ⟨some (.many
        [{ sampleShipment "02" none with
             TotalCharges := { CurrencyCode := "USD", MonetaryValue := 28.75 } },
         { sampleShipment "03" none with
             TotalCharges := { CurrencyCode := "USD", MonetaryValue := 15.50 } },
         { sampleShipment "01" none with
             TotalCharges := { CurrencyCode := "USD", MonetaryValue := 45.00 } }])⟩⟩ =
      .ok
        [mapFromUpsRatedShipment { sampleShipment "03" none with
             TotalCharges := { CurrencyCode := "USD", MonetaryValue := 15.50 } },
         mapFromUpsRatedShipment { sampleShipment "02" none with
             TotalCharges := { CurrencyCode := "USD", MonetaryValue := 28.75 } },
         mapFromUpsRatedShipment { sampleShipment "01" none with
             TotalCharges := { CurrencyCode := "USD", MonetaryValue := 45.00 } }] ∧
    ([mapFromUpsRatedShipment { sampleShipment "03" none with
          TotalCharges := { CurrencyCode := "USD", MonetaryValue := 15.50 } },
      mapFromUpsRatedShipment { sampleShipment "02" none with
          TotalCharges := { CurrencyCode := "USD", MonetaryValue := 28.75 } },
      mapFromUpsRatedShipment { sampleShipment "01" none with
          TotalCharges := { CurrencyCode := "USD", MonetaryValue := 45.00 } }].Pairwise
        (fun a b => quoteLe a b = true)) := by
  have heval : parseResponse ⟨some ⟨some (.many
      [{ sampleShipment "02" none with
           TotalCharges := { CurrencyCode := "USD", MonetaryValue := 28.75 } },
       { sampleShipment "03" none with
           TotalCharges := { CurrencyCode := "USD", MonetaryValue := 15.50 } },
       { sampleShipment "01" none with
           TotalCharges := { CurrencyCode := "USD", MonetaryValue := 45.00 } }])⟩⟩ =
      .ok
        [mapFromUpsRatedShipment { sampleShipment "03" none with
             TotalCharges := { CurrencyCode := "USD", MonetaryValue := 15.50 } },
         mapFromUpsRatedShipment { sampleShipment "02" none with
             TotalCharges := { CurrencyCode := "USD", MonetaryValue := 28.75 } },
         mapFromUpsRatedShipment { sampleShipment "01" none with
             TotalCharges := { CurrencyCode := "USD", MonetaryValue := 45.00 } }] := by
    norm_num [parseResponse, sortQuotes, normalizeOneOrMany, List.mergeSort,
      List.merge, quoteLe, mapFromUpsRatedShipment, sampleShipment,
      mapUpsCharges, mapUpsSurcharges, parseTransitDays,
      parseEstimatedDelivery]
  exact ⟨heval, ((quotes_sorted_and_stable.1 _ _ heval)).1⟩

/-- Helper for C1: once a token is cached, any sequence of calls issued
strictly before the token's safety-buffer boundary returns the cached
credential and issues no acquisition, leaving the slot unchanged. -/
theorem runGetTokenCalls_cached (td : TokenData)
    (calls : List (Int × Except CarrierError TokenData))
    (hfresh : ∀ p ∈ calls, p.1 < td.expiresAt - EXPIRY_BUFFER_MS) :
    runGetTokenCalls (some td) calls =
      (List.replicate calls.length (.ok td.accessToken), some td, 0) := by
  induction calls with
  | nil => rfl
  | cons call rest ih =>
    obtain ⟨now, acquire⟩ := call
    have hvalid : isExpired now td = false := by
      have := hfresh (now, acquire) (List.mem_cons_self _ _)
      simp only [isExpired, decide_eq_false_iff_not, not_le]
      omega
    have hrest := ih (fun p hp => hfresh p (List.mem_cons_of_mem _ hp))
    simp [runGetTokenCalls, getAccessToken, hvalid, hrest, List.replicate_succ]

/-- C1: a `getAccessToken` call finding a cached token outside the
60-second safety buffer returns its credential with zero acquisition
requests and an unchanged slot; and a whole call sequence that starts
with no valid token and whose later calls all occur strictly before the
acquired token's buffer boundary issues exactly one acquisition in
total, every call returning the identical credential string. -/
theorem token_caching (tok0 : Option TokenData) (t0 : Int) (td : TokenData)
    (rest : List (Int × Except CarrierError TokenData))
    (hinvalid : tokenInvalid t0 tok0 = true)
    (hfresh : ∀ p ∈ rest, p.1 < td.expiresAt - EXPIRY_BUFFER_MS) :
    (∀ (tok : Option TokenData) (t : TokenData) (now : Int)
        (acquire : Except CarrierError TokenData),
      tok = some t → isExpired now t = false →
      getAccessToken tok now acquire = (.ok t.accessToken, tok, 0)) ∧
    runGetTokenCalls tok0 ((t0, .ok td) :: rest) =
      (List.replicate (rest.length + 1) (.ok td.accessToken), some td, 1) := by
  constructor
  · intro tok t now acquire heq hval
    subst heq
    simp [getAccessToken, hval]
  · have hfirst : getAccessToken tok0 t0 (.ok td) = (.ok td.accessToken, some td, 1) := by
      cases tok0 with
      | none => rfl
      | some t =>
        have hexp : isExpired t0 t = true := hinvalid
        simp [getAccessToken, hexp]
    simp [runGetTokenCalls, hfirst, runGetTokenCalls_cached td rest hfresh,
      List.replicate_succ]

/-- C1 witness: starting from an empty slot at time 0, a call acquiring
a token expiring at 200000 followed by calls at times 1 and 2 — whose
oracle entries differ — returns "tokA" three times with exactly one
acquisition. -/
theorem token_caching_witness :
    runGetTokenCalls none
        [(0, .ok { accessToken := "tokA", expiresAt := 200000,
                   tokenType := "Bearer" }),
         (1, .error (networkError .UPS "down")),
         (2, .ok { accessToken := "tokB", expiresAt := 900000,
                   tokenType := "Bearer" })] =
      (List.replicate 3 (.ok "tokA"),
       some { accessToken := "tokA", expiresAt := 200000,
              tokenType := "Bearer" }, 1) :=
  (token_caching none 0
    { accessToken := "tokA", expiresAt := 200000, tokenType := "Bearer" }
    [(1, .error (networkError .UPS "down")),
     (2, .ok { accessToken := "tokB", expiresAt := 900000,
               tokenType := "Bearer" })]
    rfl (by decide)).2

/-! #### Single-flight lemmas (C2) -/

/-- Setting a caller slot that held `ready` to a non-`ready` phase
decreases the number of `ready` callers by exactly one. -/
theorem count_ready_set (l : List CallerPhase) (i : Nat) (c : CallerPhase)
    (h : l.get? i = some .ready) (hc : c ≠ .ready) :
    (l.set i c).count .ready + 1 = l.count .ready := by
  induction l generalizing i with
  | nil => simp at h
  | cons x xs ih =>
    cases i with
    | zero =>
      simp only [List.get?] at h
      injection h with h
      subst h
      simp [List.set, List.count_cons, hc]
    | succ j =>
      simp only [List.get?] at h
      have := ih j h
      simp only [List.set, List.count_cons]
      omega

/-- A prologue that finds no valid token and no in-flight acquisition
starts flight `s.started` and waits on it. -/
theorem prologueStep_fresh (now : Int) (s : FlightSys) (i : Nat)
    (htok : tokenInvalid now s.token = true)
    (hinf : s.inflight = none)
    (hget : s.callers.get? i = some .ready) :
    prologueStep now s i =
      some { s with inflight := some s.started
                    started := s.started + 1
                    callers := s.callers.set i (.waiting s.started) } := by
  unfold prologueStep
  rw [hget, hinf]
  cases h0 : s.token with
  | none => rfl
  | some t =>
    have hexp : isExpired now t = true := by rw [h0] at htok; exact htok
    simp [hexp]

/-- A prologue that finds no valid token while flight 0 is pending
attaches to flight 0 instead of starting a new acquisition. -/
theorem prologueStep_joins (now : Int) (s : FlightSys) (i : Nat)
    (htok : tokenInvalid now s.token = true)
    (hinf : s.inflight = some 0)
    (hget : s.callers.get? i = some .ready) :
    prologueStep now s i =
      some { s with callers := s.callers.set i (.waiting 0) } := by
  unfold prologueStep
  rw [hget, hinf]
  cases h0 : s.token with
  | none => rfl
  | some t =>
    have hexp : isExpired now t = true := by rw [h0] at htok; exact htok
    simp [hexp]

/-- A successful prologue can only step a caller that was `ready`. -/
theorem prologueStep_ready (now : Int) (s s' : FlightSys) (i : Nat)
    (hstep : prologueStep now s i = some s') :
    s.callers.get? i = some .ready := by
  unfold prologueStep at hstep
  cases hget : s.callers.get? i with
  | none => rw [hget] at hstep; exact Option.noConfusion hstep
  | some ph =>
    cases ph with
    | ready => rfl
    | waiting f => rw [hget] at hstep; exact Option.noConfusion hstep
    | done r => rw [hget] at hstep; exact Option.noConfusion hstep

/-- Any prologue taken from a mid-run state preserves the single-flight
invariant, consumes exactly one `ready` caller, and changes no other
component. -/
theorem prologue_preserves_inv (now : Int) (tok0 : Option TokenData)
    (s s' : FlightSys) (i : Nat)
    (htok : tokenInvalid now tok0 = true)
    (hinv : SingleFlightInv tok0 s)
    (hstep : prologueStep now s i = some s') :
    SingleFlightInv tok0 s' ∧
    s'.callers.count .ready + 1 = s.callers.count .ready ∧
    s'.callers.length = s.callers.length := by
  obtain ⟨htk, hinf, hst, hcall⟩ := hinv
  have hready := prologueStep_ready now s s' i hstep
  rw [prologueStep_joins now s i (by rw [htk]; exact htok) hinf hready] at hstep
  injection hstep with hstep
  subst hstep
  refine ⟨⟨htk, hinf, hst, ?_⟩, ?_, List.length_set _ _ _⟩
  · intro c hc
    rcases List.mem_or_eq_of_mem_set hc with h | h
    · exact hcall c h
    · exact Or.inr h
  · exact count_ready_set s.callers i (.waiting 0) hready (by simp)

/-- The very first prologue from the initial state starts flight 0 and
establishes the single-flight invariant. -/
theorem prologueStep_from_init (now : Int) (tok0 : Option TokenData)
    (n p : Nat) (s' : FlightSys)
    (htok : tokenInvalid now tok0 = true)
    (hstep : prologueStep now (initSys tok0 n) p = some s') :
    SingleFlightInv tok0 s' ∧
    s'.callers.count .ready + 1 = n ∧
    s'.callers.length = n := by
  have hready := prologueStep_ready now (initSys tok0 n) s' p hstep
  rw [prologueStep_fresh now (initSys tok0 n) p htok rfl hready] at hstep
  injection hstep with hstep
  subst hstep
  refine ⟨⟨rfl, rfl, rfl, ?_⟩, ?_, ?_⟩
  · intro c hc
    rcases List.mem_or_eq_of_mem_set hc with h | h
    · exact Or.inl (List.eq_of_mem_replicate h)
    · exact Or.inr h
  · have := count_ready_set (List.replicate n .ready) p (.waiting 0) hready
      (by simp)
    simpa [initSys] using this
  · simp [initSys, List.length_set]

/-- Running any sequence of prologues from a mid-run state preserves
the invariant and consumes one `ready` caller per prologue. -/
theorem runSys_prologues_inv (now : Int) (tok0 : Option TokenData)
    (acq : Nat → Except CarrierError TokenData)
    (htok : tokenInvalid now tok0 = true) :
    ∀ (ps : List Nat) (s s' : FlightSys),
    SingleFlightInv tok0 s →
    runSys now acq (ps.map .prologue) s = some s' →
    SingleFlightInv tok0 s' ∧
    s'.callers.count .ready + ps.length = s.callers.count .ready ∧
    s'.callers.length = s.callers.length := by
  intro ps
  induction ps with
  | nil =>
    intro s s' hinv hrun
    simp only [List.map_nil, runSys] at hrun
    injection hrun with hrun
    subst hrun
    exact ⟨hinv, by simp, rfl⟩
  | cons p ps ih =>
    intro s s' hinv hrun
    simp only [List.map_cons, runSys, sysStep] at hrun
    cases hstep : prologueStep now s p with
    | none => rw [hstep] at hrun; exact Option.noConfusion hrun
    | some s1 =>
      rw [hstep] at hrun
      simp only [Option.some_bind] at hrun
      obtain ⟨hinv1, hcnt1, hlen1⟩ :=
        prologue_preserves_inv now tok0 s s1 p htok hinv hstep
      obtain ⟨hinv2, hcnt2, hlen2⟩ := ih s1 s' hinv1 hrun
      exact ⟨hinv2, by simp only [List.length_cons]; omega, by omega⟩

/-- Completion of flight 0, taken when every caller awaits it, resumes
all of them with the shared outcome: all observe the same credential on
success (which is also stored), or the same propagated error on
failure (leaving the cached slot unchanged); the in-flight slot is
cleared either way. -/
theorem completeStep_resolves (acq : Nat → Except CarrierError TokenData)
    (s s' : FlightSys)
    (hinf : s.inflight = some 0)
    (hall : ∀ c ∈ s.callers, c = .waiting 0)
    (hstep : completeStep acq s = some s') :
    s'.inflight = none ∧ s'.started = s.started ∧
    (∀ td, acq 0 = .ok td → s'.token = some td ∧
      s'.callers = List.replicate s.callers.length (.done (.ok td.accessToken))) ∧
    (∀ e, acq 0 = .error e → s'.token = s.token ∧
      s'.callers = List.replicate s.callers.length (.done (.error e))) := by
  unfold completeStep at hstep
  rw [hinf] at hstep
  cases hacq : acq 0 with
  | ok td =>
    simp only [hacq] at hstep
    injection hstep with hstep
    subst hstep
    refine ⟨rfl, rfl, ?_, ?_⟩
    · intro td' htd'
      injection htd' with h
      subst h
      refine ⟨rfl, ?_⟩
      have hmem : ∀ c ∈ s.callers.map (fun c =>
          match c with
          | CallerPhase.waiting g =>
            if g = 0 then CallerPhase.done (.ok td.accessToken) else c
          | _ => c), c = .done (.ok td.accessToken) := by
        intro c hc
        obtain ⟨c0, hc0, rfl⟩ := List.mem_map.mp hc
        rw [hall c0 hc0]
        simp
      have h2 := List.eq_replicate_of_mem hmem
      rw [List.length_map] at h2
      exact h2
    · intro e he
      exact Except.noConfusion he
  | error e =>
    simp only [hacq] at hstep
    injection hstep with hstep
    subst hstep
    refine ⟨rfl, rfl, ?_, ?_⟩
    · intro td htd
      exact Except.noConfusion htd
    · intro e' he'
      injection he' with h
      subst h
      refine ⟨rfl, ?_⟩
      have hmem : ∀ c ∈ s.callers.map (fun c =>
          match c with
          | CallerPhase.waiting g =>
            if g = 0 then CallerPhase.done (.error e) else c
          | _ => c), c = .done (.error e) := by
        intro c hc
        obtain ⟨c0, hc0, rfl⟩ := List.mem_map.mp hc
        rw [hall c0 hc0]
        simp
      have h2 := List.eq_replicate_of_mem hmem
      rw [List.length_map] at h2
      exact h2

theorem runSys_append (now : Int) (acq : Nat → Except CarrierError TokenData)
    (l1 l2 : List SysStep) (s : FlightSys) :
    runSys now acq (l1 ++ l2) s =
      (runSys now acq l1 s).bind (runSys now acq l2) := by
  induction l1 generalizing s with
  | nil => simp [runSys]
  | cons x rest ih =>
    simp only [List.cons_append, runSys]
    cases hx : sysStep now acq s x with
    | none => simp
    | some s1 => simp [ih]

/-- C2: when `n > 0` callers concurrently enter `getAccessToken` while
no valid token is cached (every caller's prologue runs before the
acquisition completes, in any order), exactly one credential-exchange
call is started; on success every caller resolves to the same
credential, which is stored; on failure every caller observes the same
propagated error, the cached slot is unchanged, and — the in-flight
slot having been cleared — a subsequent fresh call starts a second
acquisition. -/
theorem single_flight (now : Int) (tok0 : Option TokenData) (n : Nat)
    (acq : Nat → Except CarrierError TokenData) (ps : List Nat)
    (final : FlightSys)
    (htok : tokenInvalid now tok0 = true) (hn : 0 < n)
    (hlen : ps.length = n)
    (hrun : runSys now acq (ps.map .prologue ++ [.complete]) (initSys tok0 n) =
      some final) :
    final.started = 1 ∧ final.inflight = none ∧
    (∀ td, acq 0 = .ok td →
      final.token = some td ∧
      final.callers = List.replicate n (.done (.ok td.accessToken))) ∧
    (∀ e, acq 0 = .error e →
      final.token = tok0 ∧
      final.callers = List.replicate n (.done (.error e)) ∧
      ∃ s₂, prologueStep now
          { final with callers := final.callers ++ [CallerPhase.ready] } n =
            some s₂ ∧
        s₂.started = 2 ∧ s₂.inflight = some 1) := by
  rw [runSys_append] at hrun
  cases hmid : runSys now acq (ps.map .prologue) (initSys tok0 n) with
  | none => rw [hmid] at hrun; exact Option.noConfusion hrun
  | some smid =>
    rw [hmid] at hrun
    simp only [Option.some_bind, runSys, sysStep] at hrun
    have hcomp : completeStep acq smid = some final := by
      cases hc : completeStep acq smid with
      | none => rw [hc] at hrun; exact Option.noConfusion hrun
      | some sf =>
        rw [hc] at hrun
        simp only [Option.some_bind, runSys] at hrun
        rw [hrun]
    cases hps : ps with
    | nil => rw [hps] at hlen; simp at hlen; omega
    | cons p ps' =>
      rw [hps] at hmid
      simp only [List.map_cons, runSys, sysStep] at hmid
      cases hp1 : prologueStep now (initSys tok0 n) p with
      | none => rw [hp1] at hmid; exact Option.noConfusion hmid
      | some s1 =>
        rw [hp1] at hmid
        simp only [Option.some_bind] at hmid
        obtain ⟨hinv1, hcnt1, hlen1⟩ :=
          prologueStep_from_init now tok0 n p s1 htok hp1
        obtain ⟨hinv2, hcnt2, hlen2⟩ :=
          runSys_prologues_inv now tok0 acq htok ps' s1 smid hinv1 hmid
        obtain ⟨htkmid, hinfmid, hstmid, hcallmid⟩ := hinv2
        have hps'len : ps'.length = n - 1 := by
          rw [hps] at hlen
          simp only [List.length_cons] at hlen
          omega
        have hcount0 : smid.callers.count .ready = 0 := by omega
        have hallwait : ∀ c ∈ smid.callers, c = .waiting 0 := by
          intro c hc
          rcases hcallmid c hc with h | h
          · exact absurd (h ▸ hc) (List.count_eq_zero.mp hcount0)
          · exact h
        have hlenmid : smid.callers.length = n := by rw [hlen2, hlen1]
        obtain ⟨hinfN, hstN, hok, herr⟩ :=
          completeStep_resolves acq smid final hinfmid hallwait hcomp
        have hst1 : final.started = 1 := by rw [hstN, hstmid]
        refine ⟨hst1, hinfN, ?_, ?_⟩
        · intro td htd
          obtain ⟨ht, hcal⟩ := hok td htd
          exact ⟨ht, by rw [hcal, hlenmid]⟩
        · intro e he
          obtain ⟨ht, hcal⟩ := herr e he
          have htokfin : final.token = tok0 := by rw [ht, htkmid]
          have hcallers : final.callers = List.replicate n (.done (.error e)) := by
            rw [hcal, hlenmid]
          refine ⟨htokfin, hcallers, ?_⟩
          have hget : (final.callers ++ [CallerPhase.ready]).get? n =
              some CallerPhase.ready := by
            have hl : final.callers.length = n := by rw [hcallers]; simp
            rw [List.get?_eq_getElem?, ← hl]
            exact List.getElem?_concat_length _ _
          have hfresh := prologueStep_fresh now
            { final with callers := final.callers ++ [CallerPhase.ready] } n
            (by show tokenInvalid now final.token = true; rw [htokfin]; exact htok)
            hinfN hget
          refine ⟨_, hfresh, ?_, ?_⟩
          · show final.started + 1 = 2
            rw [hst1]
          · show some final.started = some 1
            rw [hst1]

/-- C2 witness: two concurrent callers with an empty cache. On a
successful acquisition (prologue order 0,1) one flight is started and
both callers get "tok"; on a failed acquisition (prologue order 1,0)
one flight is started, both callers observe the same error, and the
cache stays empty. -/
theorem single_flight_witness :
    FlightSys.started
      { token := some { accessToken := "tok", expiresAt := 1000000,
                        tokenType := "Bearer" }
        inflight := none
        started := 1
        callers := [.done (.ok "tok"), .done (.ok "tok")] } = 1 ∧
    FlightSys.callers
      { token := some { accessToken := "tok", expiresAt := 1000000,
                        tokenType := "Bearer" }
        inflight := none
        started := 1
        callers := [.done (.ok "tok"), .done (.ok "tok")] } =
      List.replicate 2 (.done (.ok "tok")) ∧
    FlightSys.callers
      { token := none
        inflight := none
        started := 1
        callers := [.done (.error (networkError .UPS "down")),
                    .done (.error (networkError .UPS "down"))] } =
      List.replicate 2 (.done (.error (networkError .UPS "down"))) := by
  have hs := single_flight 0 none 2
    (fun _ => .ok { accessToken := "tok", expiresAt := 1000000,
                    tokenType := "Bearer" })
    [0, 1]
    { token := some { accessToken := "tok", expiresAt := 1000000,
                      tokenType := "Bearer" }
      inflight := none
      started := 1
      callers := [.done (.ok "tok"), .done (.ok "tok")] }
    rfl (by decide) rfl (by decide)
  have he := single_flight 0 none 2
    (fun _ => .error (networkError .UPS "down"))
    [1, 0]
    { token := none
      inflight := none
      started := 1
      callers := [.done (.error (networkError .UPS "down")),
                  .done (.error (networkError .UPS "down"))] }
    rfl (by decide) rfl (by decide)
  exact ⟨hs.1, (hs.2.2.1 _ rfl).2, (he.2.2.2 _ rfl).2.1⟩

end CIS
